import Mathlib

/-
Verification model of the Aihsaas task-player and guidance assistant.

The embedding translates the TypeScript source into pure Lean functions.
Functional state updaters (a setter applied to a function of the previous
value) always act on the latest value and are threaded through the run
functions as explicit state. A plain state variable read inside a timer
callback is the value captured by the closure when the callback was
registered; where a callback is registered once per step, such reads are
modelled as explicit frozen parameters.
-/

namespace Aihsaas

/-- Decision stage of `detectToothbrush` (lib/opencv-detection.ts) and
`analyzeImage` (tasks/start page): after grayscale conversion and Canny edge
extraction the frame is classified positive exactly when the count of
non-zero edge pixels strictly exceeds the fixed threshold 1000
(`return edgeCount > threshold` with `threshold = 1000`). The edge count
produced by the vision library is the input. -/
def detectToothbrush (edgeCount : Nat) : Bool :=
  decide (1000 < edgeCount)

/-- Per-step attempt cap: `currentStep.maxAttempts || 3`. A missing field and
the JavaScript-falsy value 0 both fall back to 3. -/
def stepCap (maxAttempts : Option Nat) : Nat :=
  match maxAttempts with
  | some m => if m = 0 then 3 else m
  | none => 3

/-- Mutable per-step state of the attempt-capped controller
(`captureCount` / `stepCompleted` in the tasks/start page). -/
structure CAState where
  captureCount : Nat
  stepCompleted : Bool
deriving Repr, DecidableEq

/-- State at step entry: `setStepCompleted(false); setCaptureCount(0)`. -/
def caInit : CAState :=
  { captureCount := 0, stepCompleted := false }

/-- One 3-second tick of `captureAndAnalyze`. The interval callback is
registered once per step (the effect deps are only the step index and the
camera flag), so the `captureCount` the callback reads is frozen at the
value `frozenCount` it held when the interval was created — 0 on the first
step — and never advances tick to tick; only the functional updater
`setCaptureCount(prev => prev + 1)` acts on the current count. `ev` is the
boolean result of `analyzeImage()`. The forced completion compares
`frozenCount` against `currentStep.maxAttempts || 3`. On completion the
interval is cleared, so a completed state takes no further ticks. -/
def caTick (maxAttempts : Option Nat) (frozenCount : Nat) (s : CAState) (ev : Bool) : CAState :=
  if s.stepCompleted then s
  else if ev then { captureCount := s.captureCount + 1, stepCompleted := true }
  else if stepCap maxAttempts ≤ frozenCount then
    { captureCount := s.captureCount + 1, stepCompleted := true }
  else { captureCount := s.captureCount + 1, stepCompleted := false }

/-- Run of the attempt-capped controller over a sequence of evidence ticks,
with the count frozen in the interval closure held fixed for the whole
step. -/
def caRun (maxAttempts : Option Nat) (frozenCount : Nat) : CAState → List Bool → CAState
  | s, [] => s
  | s, ev :: evs => caRun maxAttempts frozenCount (caTick maxAttempts frozenCount s ev) evs

/-- C5: the heuristic frame classifier reports positive exactly when the
edge-pixel count strictly exceeds the fixed threshold 1000; in particular an
edge count of 1500 is classified positive. -/
theorem edgeClassifierThreshold :
    (∀ edgeCount : Nat, detectToothbrush edgeCount = true ↔ 1000 < edgeCount) ∧
    detectToothbrush 1500 = true := by
  constructor
  · intro edgeCount
    simp [detectToothbrush]
  · decide

/-- C1: on the first step the count frozen in the interval closure is 0,
below the default cap 3, so the attempt-cap check never fires: three
consecutive negative-evidence ticks — and any number of them — leave the
step still in progress, instead of the forced Completed on tick 3 that the
claim (and the spec scenario) state. -/
theorem attemptCapNeverForcesFirstStep :
    (caRun (some 3) 0 caInit [false, false, false]).stepCompleted = false ∧
    (caRun (some 3) 0 caInit (List.replicate 10 false)).stepCompleted = false := by
  decide

/-- C3: four consecutive negative-evidence ticks on the first step reach
attempt count 4 with the step still in progress — strictly above the
configured cap 3 — because the forced-completion check compares the frozen
closure count 0, not the accumulated count, against the cap. -/
theorem attemptCountExceedsCapInProgress :
    (caRun (some 3) 0 caInit (List.replicate 4 false)).captureCount = 4 ∧
    (caRun (some 3) 0 caInit (List.replicate 4 false)).stepCompleted = false ∧
    stepCap (some 3) < (caRun (some 3) 0 caInit (List.replicate 4 false)).captureCount := by
  decide

/-- One labelled object detection returned by the coco-ssd model: the class
label, the confidence score in [0,1], and the y-coordinate `bbox[1]` of the
bounding box. -/
structure Detection where
  cls : String
  score : ℚ
  bboxY : ℚ
deriving Repr, DecidableEq

/-- Perception input of one 1-second tick of the model-based controller: the
object detections, whether the simulated hand-landmark stub returned any hand,
and the hand-near-mouth signal computed from those landmarks (the
`isHandNearMouth` helper lives in lib/handDetection, outside the modelled
controller, so its boolean result is an input here). -/
structure Frame where
  detections : List Detection
  handPresent : Bool
  handNearMouth : Bool
deriving Repr, DecidableEq

/-- Mutable per-step state of the progress-based controller
(`detectionProgress` / `isStepComplete` in the detection page). -/
structure DetState where
  progress : ℤ
  complete : Bool
deriving Repr, DecidableEq

/-- Lookup of the first detection whose class label is the string
toothbrush, as `checkStepCompletion` does with `detections.find`. -/
def toothbrushOf (f : Frame) : Option Detection :=
  f.detections.find? (fun d => d.cls == "toothbrush")

/-- One tick of `checkStepCompletion`. For the `brush_teeth` action type the
tick is positive when a toothbrush is detected with score above 0.6 and is
either in the upper 60% of the frame (`bbox[1] < videoHeight * 0.6`) or
co-occurs with the hand-near-mouth signal; positive evidence adds 25 when hand
and toothbrush co-occur and 15 otherwise, clamped at 100, negative evidence
subtracts 5 floored at 0. The default action type adds 10 / subtracts 2 on any
evidence present / absent. The `detectionProgress >= 80` completion check
reads the progress value captured by the enclosing closure rather than the
freshly incremented one, carried here as the state at tick entry; the bounds
and increment theorems below concern only the `progress` field. -/
def checkStepCompletion (actionType : String) (videoHeight : ℚ) (f : Frame)
    (s : DetState) : DetState :=
  if actionType = "brush_teeth" then
    let tb := toothbrushOf f
    let detected : Bool :=
      match tb with
      | some d => decide ((3 : ℚ)/5 < d.score)
      | none => false
    let upper : Bool :=
      match tb with
      | some d => decide (d.bboxY < videoHeight * (3/5))
      | none => false
    let hand := f.handNearMouth
    if (detected && upper) || (detected && hand) then
      { progress := min (s.progress + (if hand && detected then 25 else 15)) 100,
        complete := s.complete || decide ((80 : ℤ) ≤ s.progress) }
    else
      { progress := max (s.progress - 5) 0, complete := s.complete }
  else
    if !f.detections.isEmpty || f.handPresent then
      { progress := min (s.progress + 10) 100,
        complete := s.complete || decide ((80 : ℤ) ≤ s.progress) }
    else
      { progress := max (s.progress - 2) 0, complete := s.complete }

/-- Static map from step identifiers to action types
(`getActionTypeForStep`); unknown steps fall back to the default category. -/
def getActionTypeForStep (stepId : String) : String :=
  if stepId = "step-1" then "pickup_toothbrush"
  else if stepId = "step-2" then "wet_toothbrush"
  else if stepId = "step-3" then "open_toothpaste"
  else if stepId = "step-4" then "apply_toothpaste"
  else if stepId = "step-5" then "brush_teeth"
  else if stepId = "step-6" then "brush_teeth"
  else if stepId = "step-7" then "rinse_mouth"
  else "default"

/-- Delay of the fallback timer scheduled by `startDetection`:
`10000 + Math.floor(Math.random() * 1000)` milliseconds, where `r` is the
value of `Math.random()`. -/
def fallbackDelay (r : ℚ) : ℤ :=
  10000 + ⌊r * 1000⌋

/-- Effect of the fallback timer firing: `setDetectionProgress(100)` followed
by `completeDetection()`, which marks the step complete and clears the
detection interval and the timer, irrespective of the current progress. -/
def fallbackFire (_s : DetState) : DetState :=
  { progress := 100, complete := true }

/-- An event observed by the progress-based controller: either a perception
tick of `checkStepCompletion` or the firing of the fallback timer. -/
inductive DetEvent where
  | tick (f : Frame)
  | fallbackTimer
deriving Repr, DecidableEq

/-- Dispatch of one event to the progress-based controller. -/
def detStep (actionType : String) (videoHeight : ℚ) (s : DetState) :
    DetEvent → DetState
  | DetEvent.tick f => checkStepCompletion actionType videoHeight f s
  | DetEvent.fallbackTimer => fallbackFire s

/-- Run of the progress-based controller over a sequence of events. -/
def detRun (actionType : String) (videoHeight : ℚ) :
    DetState → List DetEvent → DetState
  | s, [] => s
  | s, e :: es => detRun actionType videoHeight (detStep actionType videoHeight s e) es

lemma checkStepCompletion_bounds (actionType : String) (videoHeight : ℚ)
    (f : Frame) (s : DetState) (h0 : 0 ≤ s.progress) (h1 : s.progress ≤ 100) :
    0 ≤ (checkStepCompletion actionType videoHeight f s).progress ∧
      (checkStepCompletion actionType videoHeight f s).progress ≤ 100 := by
  unfold checkStepCompletion
  dsimp only
  split_ifs <;> simp <;> omega

lemma detStep_bounds (actionType : String) (videoHeight : ℚ) (s : DetState)
    (e : DetEvent) (h0 : 0 ≤ s.progress) (h1 : s.progress ≤ 100) :
    0 ≤ (detStep actionType videoHeight s e).progress ∧
      (detStep actionType videoHeight s e).progress ≤ 100 := by
  cases e with
  | tick f => exact checkStepCompletion_bounds actionType videoHeight f s h0 h1
  | fallbackTimer => exact ⟨by simp [detStep, fallbackFire], by simp [detStep, fallbackFire]⟩

/-- C2: the progress score stays in [0, 100] along every sequence of evidence
ticks and timer events, for every action type: positive evidence saturates at
100 and negative evidence is floored at 0. -/
theorem progressAlwaysBounded (actionType : String) (videoHeight : ℚ)
    (events : List DetEvent) (s : DetState)
    (h0 : 0 ≤ s.progress) (h1 : s.progress ≤ 100) :
    0 ≤ (detRun actionType videoHeight s events).progress ∧
      (detRun actionType videoHeight s events).progress ≤ 100 := by
  induction events generalizing s with
  | nil => exact ⟨h0, h1⟩
  | cons e es ih =>
      have hb := detStep_bounds actionType videoHeight s e h0 h1
      simpa [detRun] using ih (detStep actionType videoHeight s e) hb.1 hb.2

/-- C2 witness: a run with positive, negative and absent evidence from the
initial progress 0 stays within the bounds. -/
theorem progressAlwaysBounded_witness :
    0 ≤ (detRun "brush_teeth" 480
          ⟨0, false⟩
          [DetEvent.tick ⟨[], false, false⟩, DetEvent.tick ⟨[], true, true⟩]).progress ∧
      (detRun "brush_teeth" 480
          ⟨0, false⟩
          [DetEvent.tick ⟨[], false, false⟩, DetEvent.tick ⟨[], true, true⟩]).progress ≤ 100 :=
  progressAlwaysBounded "brush_teeth" 480 _ _ (by decide) (by decide)

/-- C4: the fallback timer delay is at least 10 and less than 11 seconds for
every value of the random draw in [0, 1), and its firing forces the step to
Completed with progress 100 regardless of the state it interrupts. -/
theorem fallbackTimerBoundsAndForces (r : ℚ) (h0 : 0 ≤ r) (h1 : r < 1) :
    (10000 ≤ fallbackDelay r ∧ fallbackDelay r < 11000) ∧
    ∀ s : DetState, (fallbackFire s).complete = true ∧ (fallbackFire s).progress = 100 := by
  refine ⟨⟨?_, ?_⟩, fun s => ⟨rfl, rfl⟩⟩
  · have hfloor : (0 : ℤ) ≤ ⌊r * 1000⌋ :=
      Int.floor_nonneg.mpr (by nlinarith)
    unfold fallbackDelay
    omega
  · have hfloor : ⌊r * 1000⌋ < 1000 := by
      rw [Int.floor_lt]
      push_cast
      nlinarith
    unfold fallbackDelay
    omega

/-- C4 witness: the concrete random draw 1/2 yields a delay in [10000, 11000). -/
theorem fallbackTimerBoundsAndForces_witness :
    10000 ≤ fallbackDelay (1/2) ∧ fallbackDelay (1/2) < 11000 :=
  (fallbackTimerBoundsAndForces (1/2) (by norm_num) (by norm_num)).1

/-- C6: on a positive brush-teeth tick where the object detector reports a
toothbrush at confidence 0.62 positioned in the upper 60% of the frame, the
progress increment is 25 when the hand-proximity signal co-occurs and 15
without it, always clamped at 100; below the clamp the increment is exactly
25. -/
theorem toothbrushWithHandIncrementsBy25 (p : ℤ) (c hp : Bool) (videoHeight y : ℚ)
    (hy : y < videoHeight * (3/5)) :
    (checkStepCompletion "brush_teeth" videoHeight
        ⟨[⟨"toothbrush", 31/50, y⟩], hp, true⟩ ⟨p, c⟩).progress = min (p + 25) 100 ∧
    (checkStepCompletion "brush_teeth" videoHeight
        ⟨[⟨"toothbrush", 31/50, y⟩], hp, false⟩ ⟨p, c⟩).progress = min (p + 15) 100 ∧
    (p ≤ 75 →
      (checkStepCompletion "brush_teeth" videoHeight
        ⟨[⟨"toothbrush", 31/50, y⟩], hp, true⟩ ⟨p, c⟩).progress = p + 25) := by
  have hscore : ((3 : ℚ)/5 < 31/50) := by norm_num
  refine ⟨?_, ?_, ?_⟩
  · simp [checkStepCompletion, toothbrushOf, List.find?, hscore, hy]
  · simp [checkStepCompletion, toothbrushOf, List.find?, hscore, hy]
  · intro hclamp
    simp [checkStepCompletion, toothbrushOf, List.find?, hscore, hy]
    omega

/-- C6 witness: concrete frame height 480 with the toothbrush box at y = 100
and progress 40 increments by exactly 25. -/
theorem toothbrushWithHandIncrementsBy25_witness :
    (checkStepCompletion "brush_teeth" 480
        ⟨[⟨"toothbrush", 31/50, 100⟩], false, true⟩ ⟨40, false⟩).progress
      = min (40 + 25) 100 :=
  (toothbrushWithHandIncrementsBy25 40 false false 480 100 (by norm_num)).1

/-- A speech-synthesis utterance submitted to the engine: its identifier, its
text, and whether its `onend` completion callback and `onerror` callback are
still attached (`speak` attaches both). -/
structure Utterance where
  id : Nat
  text : String
  onendAttached : Bool
  onerrorAttached : Bool
deriving Repr, DecidableEq

/-- Narration state: the utterances live in the synthesis engine (head first),
the utterance tracked by `speechUtteranceRef`, whether the engine is currently
speaking its head (`speechSynthesis.speaking`), the `isPlaying` flag, the
texts of the networked fallback audio clips currently playing, and a fresh-id
counter. -/
structure NarrationState where
  live : List Utterance
  trackedId : Option Nat
  engineSpeaking : Bool
  isPlaying : Bool
  fallbackAudios : List String
  nextId : Nat
deriving Repr, DecidableEq

/-- Narration state at mount: no utterance, nothing playing. -/
def narrInit : NarrationState :=
  { live := [], trackedId := none, engineSpeaking := false, isPlaying := false,
    fallbackAudios := [], nextId := 0 }

/-- Detaching the `onend` callback of the utterance tracked by
`speechUtteranceRef` (the ref field is set to null on the utterance object);
its `onerror` callback stays attached. -/
def detachOnEnd (trackedId : Option Nat) (l : List Utterance) : List Utterance :=
  match trackedId with
  | none => l
  | some i => l.map fun u => if u.id = i then { u with onendAttached := false } else u

/-- `cancelSpeech`: the engine is cancelled only when
`speechSynthesis.speaking` is true, so an enqueued utterance that has not
started speaking survives. Cancelling fires the still-attached `onerror` of
the in-flight utterance, whose handler starts networked fallback audio of
that utterance's text. Afterwards the `onend` of the tracked utterance is
detached, the ref is cleared and `isPlaying` reset. -/
def cancelSpeech (s : NarrationState) : NarrationState :=
  let live1 := if s.engineSpeaking then [] else s.live
  let newFallbacks :=
    if s.engineSpeaking then
      match s.live with
      | u :: _ => if u.onerrorAttached then [u.text] else []
      | [] => []
    else []
  { live := detachOnEnd s.trackedId live1,
    trackedId := none,
    engineSpeaking := false,
    isPlaying := false,
    fallbackAudios := s.fallbackAudios ++ newFallbacks,
    nextId := s.nextId }

/-- `speak`: returns untouched before any user interaction; otherwise it runs
`cancelSpeech` and then either enqueues one new tracked utterance (with both
`onend` and `onerror` attached) when the synthesizer is available, or starts
the networked audio fallback, which is never tracked or cancelled. -/
def speak (userInteracted ttsAvailable : Bool) (text : String)
    (s : NarrationState) : NarrationState :=
  if !userInteracted then s
  else
    let s1 := cancelSpeech s
    if ttsAvailable then
      { s1 with
        live := s1.live ++
          [{ id := s1.nextId, text := text, onendAttached := true, onerrorAttached := true }],
        trackedId := some s1.nextId,
        nextId := s1.nextId + 1 }
    else
      { s1 with fallbackAudios := s1.fallbackAudios ++ [text] }

/-- An event of the narration subsystem: a call to `speak`, the engine
starting to speak its queue head (`onstart` sets `isPlaying`), the natural
end of the spoken utterance (`onend`, when still attached, resets `isPlaying`
and the ref), the end of one fallback audio clip, or an explicit
`cancelSpeech` (step transition or teardown). -/
inductive NarrOp where
  | speakOp (userInteracted ttsAvailable : Bool) (text : String)
  | engineStart
  | utteranceEnd
  | audioEnd
  | cancelOp
deriving Repr, DecidableEq

/-- Dispatch of one narration event. -/
def narrStep (s : NarrationState) : NarrOp → NarrationState
  | NarrOp.speakOp userInteracted ttsAvailable text =>
      speak userInteracted ttsAvailable text s
  | NarrOp.engineStart =>
      match s.live with
      | [] => s
      | _ :: _ =>
          if s.engineSpeaking then s
          else { s with engineSpeaking := true, isPlaying := true }
  | NarrOp.utteranceEnd =>
      match s.live with
      | [] => s
      | u :: rest =>
          if s.engineSpeaking then
            if u.onendAttached then
              { s with live := rest, engineSpeaking := false, isPlaying := false, trackedId := none }
            else { s with live := rest, engineSpeaking := false }
          else s
  | NarrOp.audioEnd =>
      match s.fallbackAudios with
      | [] => s
      | _ :: rest => { s with fallbackAudios := rest }
  | NarrOp.cancelOp => cancelSpeech s

/-- Run of the narration subsystem from mount over a sequence of events. -/
def narrRun : NarrationState → List NarrOp → NarrationState
  | s, [] => s
  | s, op :: ops => narrRun (narrStep s op) ops

/-- C7 counterexample: two rapid calls to `speak` before the engine begins
speaking leave two utterances live at once — when the second call runs,
`speechSynthesis.speaking` is still false, so `cancelSpeech` does not cancel
the first, still-enqueued utterance. -/
theorem twoUtterancesLive :
    ((narrRun narrInit
        [NarrOp.speakOp true true "pick up your toothbrush",
         NarrOp.speakOp true true "wet the toothbrush"]).live).length = 2 := by
  decide

/-- C7 amended: a call to `speak` that starts a new utterance always detaches
the completion callback of the tracked utterance and re-points the ref at the
new one; when the synthesizer is currently speaking it also cancels the
engine, leaving exactly the new utterance live, while the cancelled
utterance's still-attached error callback starts fallback audio of the old
text. An utterance that has not started speaking is not cancelled, so at most
one active utterance is not an invariant. -/
theorem speakCancelsOnlyWhenSpeaking :
    (∀ (s : NarrationState) (text : String), s.engineSpeaking = true →
      (speak true true text s).live
        = [{ id := s.nextId, text := text, onendAttached := true, onerrorAttached := true }]) ∧
    (∀ (s : NarrationState) (text : String),
      (speak true true text s).trackedId = some s.nextId) ∧
    (∀ (s : NarrationState) (text : String) (u : Utterance) (rest : List Utterance),
      s.engineSpeaking = true → s.live = u :: rest → u.onerrorAttached = true →
      (speak true true text s).fallbackAudios = s.fallbackAudios ++ [u.text]) := by
  refine ⟨?_, ?_, ?_⟩
  · intro s text h
    cases htid : s.trackedId <;> simp [speak, cancelSpeech, detachOnEnd, h, htid]
  · intro s text
    simp [speak, cancelSpeech]
  · intro s text u rest h hl hu
    simp [speak, cancelSpeech, h, hl, hu]

/-- C7 amended witness: while the engine is speaking an old utterance, a new
speak leaves only the new utterance live and starts fallback audio of the
old text. -/
theorem speakCancelsOnlyWhenSpeaking_witness :
    (speak true true "rinse your mouth"
        { live := [{ id := 0, text := "brush your teeth",
                     onendAttached := true, onerrorAttached := true }],
          trackedId := some 0, engineSpeaking := true, isPlaying := true,
          fallbackAudios := [], nextId := 1 }).live
      = [{ id := 1, text := "rinse your mouth",
           onendAttached := true, onerrorAttached := true }] ∧
    (speak true true "rinse your mouth"
        { live := [{ id := 0, text := "brush your teeth",
                     onendAttached := true, onerrorAttached := true }],
          trackedId := some 0, engineSpeaking := true, isPlaying := true,
          fallbackAudios := [], nextId := 1 }).fallbackAudios
      = ["brush your teeth"] :=
  ⟨speakCancelsOnlyWhenSpeaking.1 _ "rinse your mouth" rfl,
   by
    simpa using
      speakCancelsOnlyWhenSpeaking.2.2 _ "rinse your mouth"
        ⟨0, "brush your teeth", true, true⟩ [] rfl rfl rfl⟩

/-- Support section of the structured guidance response. -/
structure SupportSection where
  emotionalSupport : String
  validation : String
deriving Repr, DecidableEq

/-- Per-age suggestion lists of the guidance action plan. -/
structure AgeSpecificPlan where
  autism : List String
  cerebralPalsy : List String
  combined : Option (List String)
deriving Repr, DecidableEq

/-- Action-plan section of the structured guidance response. -/
structure ActionPlanSection where
  immediateSteps : List String
  ageSpecificPlans : List (String × AgeSpecificPlan)
  longTermStrategies : List String
deriving Repr, DecidableEq

/-- A complete guidance response, as `getParentGuidance` returns it. -/
structure GuidanceResponse where
  support : SupportSection
  actionPlan : ActionPlanSection
  therapySuggestions : List String
deriving Repr, DecidableEq

/-- The JSON object parsed from the assistant reply, before the structure
check: each required top-level field may be absent. -/
structure ParsedGuidance where
  support : Option SupportSection
  actionPlan : Option ActionPlanSection
  therapySuggestions : Option (List String)
deriving Repr, DecidableEq

/-- The generic retryable failure message surfaced by `getParentGuidance`:
the structure check throws inside the try block and the catch rethrows this
message. -/
def guidanceFailureMessage : String :=
  "Failed to get guidance. Please try again."

/-- Validation stage of `getParentGuidance`: a parsed response missing
`support`, `actionPlan` or `therapySuggestions` is rejected
(`throw new Error(...)`, resurfaced as the generic retry message); a complete
response is returned as is. -/
def validateGuidance (p : ParsedGuidance) : Except String GuidanceResponse :=
  match p.support, p.actionPlan, p.therapySuggestions with
  | some s, some a, some t => Except.ok { support := s, actionPlan := a, therapySuggestions := t }
  | _, _, _ => Except.error guidanceFailureMessage

/-- C8: every parsed assistant response missing one of the required top-level
fields is rejected with the generic retryable failure message instead of being
returned. -/
theorem malformedGuidanceRejected (p : ParsedGuidance)
    (h : p.support = none ∨ p.actionPlan = none ∨ p.therapySuggestions = none) :
    validateGuidance p = Except.error guidanceFailureMessage := by
  obtain ⟨s, a, t⟩ := p
  cases s <;> cases a <;> cases t <;> simp_all [validateGuidance]

/-- C8 witness: a response with support and action plan but no
`therapySuggestions` field is rejected with the retry message. -/
theorem malformedGuidanceRejected_witness :
    validateGuidance
        { support := some { emotionalSupport := "We hear you", validation := "That is hard" },
          actionPlan := some { immediateSteps := [], ageSpecificPlans := [], longTermStrategies := [] },
          therapySuggestions := none }
      = Except.error guidanceFailureMessage :=
  malformedGuidanceRejected _ (Or.inr (Or.inr rfl))

/-- The failure categories of camera acquisition, from the `DOMException`
names inspected by `initCamera`. -/
inductive CamErr where
  | notFound
  | notAllowed
  | notReadable
  | other
deriving Repr, DecidableEq

/-- Human-readable category of a camera failure, as derived by `initCamera`
after the final attempt. -/
def cameraErrorMessage : CamErr → String
  | CamErr.notFound => "No camera found"
  | CamErr.notAllowed => "Permission denied"
  | CamErr.notReadable => "Camera in use"
  | CamErr.other => "Camera error"

/-- `initCamera(attempt)`: `outcome n` is the result of the n-th acquisition
attempt (`none` for success). On failure with `attempt < 3` it waits
`1000 * attempt` milliseconds and recurses with `attempt + 1`; otherwise it
surfaces the terminal error message of the last failure. Returns the list of
back-off delays together with the final result. -/
def initCamera (outcome : Nat → Option CamErr) (attempt : Nat) :
    List Nat × Except String Unit :=
  match outcome attempt with
  | none => ([], Except.ok ())
  | some e =>
      if h : attempt < 3 then
        let rest := initCamera outcome (attempt + 1)
        (1000 * attempt :: rest.1, rest.2)
      else ([], Except.error (cameraErrorMessage e))
termination_by 3 - attempt
decreasing_by omega

/-- C9: camera acquisition from attempt 1 succeeds immediately with no
back-off when the first attempt works, stops at the first success otherwise,
waits `attempt × 1s` between attempts, and after three failed attempts
surfaces the terminal error whose message is derived from the last failure. -/
theorem cameraRetryPolicy (outcome : Nat → Option CamErr) :
    (outcome 1 = none → initCamera outcome 1 = ([], Except.ok ())) ∧
    (∀ e1, outcome 1 = some e1 → outcome 2 = none →
      initCamera outcome 1 = ([1000], Except.ok ())) ∧
    (∀ e1 e2, outcome 1 = some e1 → outcome 2 = some e2 → outcome 3 = none →
      initCamera outcome 1 = ([1000, 2000], Except.ok ())) ∧
    (∀ e1 e2 e3, outcome 1 = some e1 → outcome 2 = some e2 → outcome 3 = some e3 →
      initCamera outcome 1 = ([1000, 2000], Except.error (cameraErrorMessage e3))) := by
  refine ⟨?_, ?_, ?_, ?_⟩
  · intro h1
    rw [initCamera, h1]
  · intro e1 h1 h2
    rw [initCamera, h1]
    rw [initCamera, h2]
    norm_num
  · intro e1 e2 h1 h2 h3
    rw [initCamera, h1]
    rw [initCamera, h2]
    rw [initCamera, h3]
    norm_num
  · intro e1 e2 e3 h1 h2 h3
    rw [initCamera, h1]
    rw [initCamera, h2]
    rw [initCamera, h3]
    norm_num

/-- C9 witness: with permission denied on every attempt, the run backs off
1s then 2s and surfaces the permission-denied category. -/
theorem cameraRetryPolicy_witness :
    initCamera (fun _ => some CamErr.notAllowed) 1
      = ([1000, 2000], Except.error "Permission denied") :=
  (cameraRetryPolicy (fun _ => some CamErr.notAllowed)).2.2.2
    CamErr.notAllowed CamErr.notAllowed CamErr.notAllowed rfl rfl rfl

/-- Whether a character list starts with another one, used to implement the
JavaScript `String.prototype.includes` substring test. -/
def charsStartWith : List Char → List Char → Bool
  | _, [] => true
  | [], _ :: _ => false
  | c :: cs, d :: ds => c == d && charsStartWith cs ds

/-- JavaScript `hay.includes(needle)` over exploded character lists: the
needle occurs as a contiguous run of the haystack (the empty needle always
matches). -/
def charsContain (needle : List Char) : List Char → Bool
  | [] => charsStartWith [] needle
  | c :: cs => charsStartWith (c :: cs) needle || charsContain needle cs

/-- The general-query keyword list of the guidance page. -/
def GENERAL_KEYWORDS : List String :=
  ["weather", "time", "capital", "how old", "who is"]

/-- `isGeneralQuery`: some keyword occurs, case-insensitively, as a substring
of the query (`query.toLowerCase().includes(keyword.toLowerCase())`). -/
def isGeneralQuery (query : String) : Bool :=
  GENERAL_KEYWORDS.any fun kw =>
    charsContain (kw.data.map Char.toLower) (query.data.map Char.toLower)

/-- The sender of a chat message on the guidance page. -/
inductive Sender where
  | parent
  | guide
deriving Repr, DecidableEq

/-- One chat message. Structured guidance responses enter the context string
through `JSON.stringify`, so `content` carries the string payload used there;
the optional `isGeneral` flag of the source is `false` when absent. -/
structure ChatMessage where
  sender : Sender
  content : String
  isGeneral : Bool
deriving Repr, DecidableEq

/-- JavaScript `list.slice(-n)`: the last `n` elements (or all of them). -/
def lastN (n : Nat) (l : List ChatMessage) : List ChatMessage :=
  l.drop (l.length - n)

/-- The context string built for an assistant call: the last three messages,
with every message flagged `isGeneral` removed, joined by single spaces. -/
def buildContext (msgs : List ChatMessage) : String :=
  String.intercalate " " (((lastN 3 msgs).filter (fun m => !m.isGeneral)).map (·.content))

/-- The fixed guide reply appended for general queries. -/
def cannedGeneralReply : String :=
  "I specialize in neurodevelopmental guidance. For general questions like this, please try a different resource."

/-- The error reply appended by the catch branch of `handleSend`. -/
def sendFailureReply : String :=
  "Sorry, I encountered an error. Please try again later."

/-- Result of one `handleSend`: the new message list and, when the assistant
API was invoked for this message, the context string passed to it. -/
structure SendResult where
  newMessages : List ChatMessage
  apiCall : Option String
deriving Repr, DecidableEq

/-- One `handleSend` on the guidance page. A blank input is ignored
(`!input.trim()`). Otherwise the parent message is appended (with no
`isGeneral` flag); a general query then gets the fixed canned reply flagged
`isGeneral` and no API call, while any other input calls the API with the
context built from the pre-send message list (the snapshot `messages` read in
the handler) and appends either the response or the catch-branch error
reply. `api` is the outcome of `getParentGuidance`. -/
def handleSend (msgs : List ChatMessage) (input : String)
    (api : Except String String) : SendResult :=
  if input.data.all Char.isWhitespace then
    { newMessages := msgs, apiCall := none }
  else
    let userMsg : ChatMessage := { sender := Sender.parent, content := input, isGeneral := false }
    let msgs1 := msgs ++ [userMsg]
    if isGeneralQuery input then
      { newMessages :=
          msgs1 ++ [{ sender := Sender.guide, content := cannedGeneralReply, isGeneral := true }],
        apiCall := none }
    else
      match api with
      | Except.ok resp =>
          { newMessages :=
              msgs1 ++ [{ sender := Sender.guide, content := resp, isGeneral := false }],
            apiCall := some (buildContext msgs) }
      | Except.error _ =>
          { newMessages :=
              msgs1 ++ [{ sender := Sender.guide, content := sendFailureReply, isGeneral := false }],
            apiCall := some (buildContext msgs) }

/-- C10 counterexample: a submitted message containing the keyword `weather`
skips the API, but it is not flagged general, so the context string of the
very next API call is exactly that general message — it is not excluded from
later context as the claim states. -/
theorem generalMessageEntersContext :
    (handleSend [] "what is the weather today" (Except.error "e")).apiCall = none ∧
    (handleSend (handleSend [] "what is the weather today" (Except.error "e")).newMessages
        "my child needs help with daily routines" (Except.ok "guidance")).apiCall
      = some "what is the weather today" := by
  decide

/-- C10 amended: a submitted message containing a general-query keyword never
triggers an API call and gets the fixed specialisation reply; the canned
guide reply is flagged general and therefore excluded from every later
context window, but the submitted general message itself carries no flag and
stays eligible for later context windows. -/
theorem generalQueryBypassesApi (msgs : List ChatMessage) (input : String)
    (api : Except String String)
    (hgen : isGeneralQuery input = true)
    (hne : input.data.all Char.isWhitespace = false) :
    (handleSend msgs input api).apiCall = none ∧
    (handleSend msgs input api).newMessages
      = msgs ++ [{ sender := Sender.parent, content := input, isGeneral := false },
                 { sender := Sender.guide, content := cannedGeneralReply, isGeneral := true }] ∧
    ({ sender := Sender.guide, content := cannedGeneralReply, isGeneral := true } : ChatMessage) ∉
      (lastN 3 (handleSend msgs input api).newMessages).filter (fun m => !m.isGeneral) := by
  refine ⟨?_, ?_, ?_⟩
  · simp [handleSend, hne, hgen]
  · simp [handleSend, hne, hgen]
  · intro hmem
    have := (List.mem_filter.mp hmem).2
    simp at this

/-- C10 amended witness: the concrete weather question is handled without an
API call. -/
theorem generalQueryBypassesApi_witness :
    (handleSend [] "what is the weather" (Except.ok "x")).apiCall = none :=
  (generalQueryBypassesApi [] "what is the weather" (Except.ok "x")
    (by decide) (by decide)).1

end Aihsaas
